import Mathlib

/-!
# Conversation validator — shallow embedding

A shallow embedding of the conversation analysis engine of
`conversation_validator.py`: the per-conversation turn analyzer
(`_analyze_conversation` and its helpers `_calculate_semantic_similarity`,
`_extract_information_type`, `_analyze_tone`, `_check_compliance`) and the
batch aggregator (`generate_report`, `_generate_recommendations`).

Modelling conventions:
* Python strings are Lean `String`; `str.lower()` is `strLower` (mapping
  `Char.toLower` over the characters) and the Python substring test
  `needle in hay` is `pyIn`.
* Python numbers used by the engine (response times, similarity scores)
  are `ℚ`.
* A Python dict built with string keys `turn_{n}` / info-type / profile
  names is an association list in insertion order.
* A raised Python exception is `Except.error` with a `PyErr` tag;
  `statistics.mean` and the builtin `max` on an empty list raise, and a
  missing dict key raises `KeyError`.
* The embedding model plus cosine-similarity pipeline
  (`sentence_transformers` / `sklearn`, external services per the spec's
  §6) is an oracle parameter `SimOracle` producing one score per theme and
  allowed to raise; the spaCy named-entity recognizer is an oracle
  `NlpOracle` returning the entity (surface text, label) pairs of a text.
-/

/-- Error tags for exceptions the Python code can raise:
`statistics.mean` on empty data raises `StatisticsError`, `max` on an
empty sequence raises `ValueError`, a missing dict key raises `KeyError`,
and a failing embedding/extraction service call raises its own error. -/
inductive PyErr where
  | statisticsError
  | valueError
  | keyError
  | serviceError
deriving DecidableEq, Repr

/-- Python `str.lower()` (on the ASCII alphabet used by the registries). -/
def strLower (s : String) : String := ⟨s.data.map Char.toLower⟩

/-- Substring test on character lists: does `needle` occur contiguously in
the second list?  Mirrors Python `needle in hay` (the empty needle occurs
in every string). -/
def containsSub (needle : List Char) : List Char → Bool
  | [] => needle.isEmpty
  | c :: t => needle.isPrefixOf (c :: t) || containsSub needle t

/-- Python `needle in hay` on strings. -/
def pyIn (needle hay : String) : Bool := containsSub needle.data hay.data

/-- Model of `statistics.mean`: raises `StatisticsError` on empty data, otherwise
the arithmetic mean. -/
def statMean (l : List ℚ) : Except PyErr ℚ :=
  if l.isEmpty then .error .statisticsError else .ok (l.sum / l.length)

/-- Python builtin `max` on a list of numbers: raises `ValueError` on an
empty sequence. -/
def pyMax : List ℚ → Except PyErr ℚ
  | [] => .error .valueError
  | x :: t => .ok (t.foldl max x)

/-! ## Data model (§3 of the spec, from the source's dict shapes) -/

/-- One entry of a template's `conversation_flow`: the turn number and the
`expected_ai_themes` list (the source reads the themes with
`.get('expected_ai_themes', [])`, so an absent key is the empty list). -/
structure TemplateTurn where
  turn : Nat
  expected_ai_themes : List String
deriving DecidableEq, Repr

/-- The `validation_criteria` mapping of a template; each key is read with
`.get(key, [])`, so absent keys are empty lists. -/
structure ValidationCriteria where
  information_capture : List String
  tone_requirements : List String
  prohibited_content : List String
deriving DecidableEq, Repr

/-- A parsed conversation template. -/
structure ConversationTemplate where
  case_type : String
  conversation_flow : List TemplateTurn
  validation_criteria : ValidationCriteria
deriving DecidableEq, Repr

/-- One captured transcript turn, as produced by the external driver. -/
structure TranscriptTurn where
  turn : Nat
  user_input : String
  ai_response : String
  response_time_ms : ℚ
deriving DecidableEq, Repr

/-- The `ConversationResult` dict handed to `_analyze_conversation`:
`success` flag plus the captured turn list. -/
structure ConversationData where
  success : Bool
  conversation : List TranscriptTurn
deriving DecidableEq, Repr

/-- An entity returned by the spaCy pipeline: surface text and label. -/
structure SpacyEnt where
  text : String
  label : String
deriving DecidableEq, Repr

/-- The external named-entity recognizer (`self.nlp`), abstracted as the
entity list it yields for a text. -/
def NlpOracle := String → List SpacyEnt

/-- The embedding + cosine-similarity pipeline of
`_calculate_semantic_similarity` (encode the response, encode the theme
batch, take pairwise cosines).  Abstracted as an oracle from the response
and the theme list to one score per theme; the service call may raise. -/
def SimOracle := String → List String → Except PyErr (List ℚ)

/-! ## Similarity scorer -/

/-- Model of `_calculate_semantic_similarity`: an empty theme list short-circuits to
the empty mapping before any service call; otherwise the embedding
pipeline runs (and any exception it raises propagates) and each theme is
paired with its score. -/
def calculate_semantic_similarity (oracle : SimOracle) (ai_response : String)
    (expected_themes : List String) : Except PyErr (List (String × ℚ)) :=
  if expected_themes.isEmpty then .ok []
  else do
    let sims ← oracle ai_response expected_themes
    .ok (expected_themes.zip sims)

/-- The per-turn entry written into `analysis['semantic_similarity']`. -/
structure TurnSimilarity where
  expected_themes : List String
  similarity_scores : List (String × ℚ)
  avg_similarity : ℚ
deriving DecidableEq, Repr

/-- Model of `next((t for t in template.conversation_flow if t['turn'] ==
turn_num), None)`: the first template turn with the given number. -/
def findTemplateTurn (flow : List TemplateTurn) (n : Nat) : Option TemplateTurn :=
  flow.find? (fun t => t.turn == n)

/-- The semantic-similarity loop of `_analyze_conversation` (step 1):
for each transcript turn, look up the matching template turn by number
(skipping the turn when there is none), score the response against the
expected themes, and record the entry keyed by turn number.
`avg_similarity` is the mean of the scores, or `0` for an empty mapping. -/
def simLoop (oracle : SimOracle) (flow : List TemplateTurn) :
    List TranscriptTurn → Except PyErr (List (Nat × TurnSimilarity))
  | [] => .ok []
  | td :: rest =>
    match findTemplateTurn flow td.turn with
    | none => simLoop oracle flow rest
    | some tt => do
      let scores ← calculate_semantic_similarity oracle td.ai_response tt.expected_ai_themes
      let avg : ℚ := if scores.isEmpty then 0
                     else (scores.map Prod.snd).sum / scores.length
      let rest' ← simLoop oracle flow rest
      .ok ((td.turn, ⟨tt.expected_ai_themes, scores, avg⟩) :: rest')

/-! ## Information extractor -/

/-- One row of the `extraction_patterns` table: the optional `'entities'`
and `'keywords'` keys of the rule dict. -/
structure ExtractionPattern where
  entities : Option (List String)
  keywords : Option (List String)
deriving DecidableEq, Repr

/-- The `extraction_patterns` registry of `_extract_information_type`,
with `.get(info_type, {})` semantics: an unknown type is the empty rule. -/
def extraction_patterns (info_type : String) : ExtractionPattern :=
  if info_type = "client_name" then
    ⟨some ["PERSON"], some ["name is", "called", "my name"]⟩
  else if info_type = "location" then
    ⟨some ["GPE", "LOC"], some ["live in", "from", "located"]⟩
  else if info_type = "accident_details" then
    ⟨none, some ["accident", "crash", "collision", "hit"]⟩
  else if info_type = "fault_determination" then
    ⟨none, some ["red light", "fault", "responsible", "caused"]⟩
  else ⟨none, none⟩

/-- The dict returned by `_extract_information_type`. -/
structure ExtractionResult where
  entities_found : List String
  keywords_found : List String
  extraction_confidence : Nat
  extracted : Bool
deriving DecidableEq, Repr

/-- Model of `_extract_information_type`: run the NER pipeline, look up the rule for
the information type, keep the entities whose label is listed by the rule
and the rule keywords occurring in the lowercased text, and report the
counts. -/
def extract_information_type (nlp : NlpOracle) (text : String)
    (info_type : String) : ExtractionResult :=
  let doc := nlp text
  let pattern := extraction_patterns info_type
  let entities : List String :=
    match pattern.entities with
    | some labels => (doc.filter (fun e => labels.contains e.label)).map (fun e => e.text)
    | none => []
  let keywords_found : List String :=
    match pattern.keywords with
    | some kws => kws.filter (fun kw => pyIn kw (strLower text))
    | none => []
  { entities_found := entities
    keywords_found := keywords_found
    extraction_confidence := entities.length + keywords_found.length
    extracted := decide (0 < entities.length) || decide (0 < keywords_found.length) }

/-! ## Tone analyzer -/

/-- The `tone_indicators` registry of `_analyze_tone`, with
`.get(requirement, [])` semantics for unknown profiles. -/
def tone_indicators (profile : String) : List String :=
  if profile = "professional" then
    ["attorney", "legal", "information", "assist", "help"]
  else if profile = "empathetic" then
    ["sorry", "understand", "difficult", "experience"]
  else if profile = "legally_compliant" then
    ["not legal advice", "attorney will", "cannot provide advice"]
  else []

/-- The per-profile dict produced by `_analyze_tone`. -/
structure ToneScore where
  indicators_found : List String
  score : ℚ
  meets_requirement : Bool
deriving DecidableEq, Repr

/-- The body of `_analyze_tone`'s loop for one requested profile. -/
def toneScoreFor (text : String) (requirement : String) : ToneScore :=
  let indicators := tone_indicators requirement
  let found := indicators.filter (fun ind => pyIn ind (strLower text))
  { indicators_found := found
    score := if indicators.isEmpty then 0
             else (found.length : ℚ) / indicators.length
    meets_requirement := decide (0 < found.length) }

/-- Model of `_analyze_tone`: one entry per requested tone profile, in request
order. -/
def analyze_tone (text : String) (tone_requirements : List String) :
    List (String × ToneScore) :=
  tone_requirements.map (fun r => (r, toneScoreFor text r))

/-! ## Compliance checker -/

/-- Model of `_check_compliance`: the loop appending each prohibited phrase whose
lowercased form occurs in the lowercased transcript text. -/
def check_compliance (text : String) (prohibited_content : List String) :
    List String :=
  prohibited_content.foldl
    (fun violations p =>
      if pyIn (strLower p) (strLower text) then violations ++ [p] else violations)
    []

/-- The `compliance_check` dict assembled in `_analyze_conversation`:
the violations list and `is_compliant := len(violations) == 0`. -/
structure ComplianceCheck where
  violations : List String
  is_compliant : Bool
deriving DecidableEq, Repr

/-- Assembly of `analysis['compliance_check']`. -/
def compliance_check_record (text : String) (prohibited_content : List String) :
    ComplianceCheck :=
  let issues := check_compliance text prohibited_content
  { violations := issues, is_compliant := issues.length == 0 }

/-! ## Turn analyzer (orchestrator) -/

/-- The `performance_metrics` dict of `_analyze_conversation` (step 5). -/
structure PerformanceMetrics where
  avg_response_time_ms : ℚ
  max_response_time_ms : ℚ
  total_turns : Nat
  successful_turns : Nat
deriving DecidableEq, Repr

/-- The `analysis` dict assembled by a successful run of
`_analyze_conversation`. -/
structure AnalysisRecord where
  semantic_similarity : List (Nat × TurnSimilarity)
  information_extraction : List (String × ExtractionResult)
  tone_analysis : List (String × ToneScore)
  compliance_check : ComplianceCheck
  performance_metrics : PerformanceMetrics
deriving DecidableEq, Repr

/-- What `_analyze_conversation` returns (as opposed to raises): either the
early `{'error': 'Conversation execution failed'}` record for a failed
capture, or the assembled analysis. -/
inductive AnalysisOutcome where
  | execError
  | report (a : AnalysisRecord)
deriving DecidableEq, Repr

/-- Model of `_analyze_conversation`: short-circuit to the error record when the
capture was unsuccessful; otherwise run the similarity loop (step 1, may
propagate a service exception), build the full-conversation text joined by
single spaces, run extraction, tone and compliance over it (steps 2-4,
total), and compute the performance metrics (step 5) whose `mean`/`max`
raise on an empty turn list. -/
def analyze_conversation (oracle : SimOracle) (nlp : NlpOracle)
    (conversation_data : ConversationData) (template : ConversationTemplate) :
    Except PyErr AnalysisOutcome :=
  if !conversation_data.success then .ok .execError
  else do
    let conversation := conversation_data.conversation
    let semantic ← simLoop oracle template.conversation_flow conversation
    let full_text := String.intercalate " " (conversation.map (fun t => t.ai_response))
    let info := template.validation_criteria.information_capture.map
      (fun it => (it, extract_information_type nlp full_text it))
    let tone := analyze_tone full_text template.validation_criteria.tone_requirements
    let compliance := compliance_check_record full_text
      template.validation_criteria.prohibited_content
    let response_times := conversation.map (fun t => t.response_time_ms)
    let avg ← statMean response_times
    let mx ← pyMax response_times
    .ok (.report
      { semantic_similarity := semantic
        information_extraction := info
        tone_analysis := tone
        compliance_check := compliance
        performance_metrics :=
          { avg_response_time_ms := avg
            max_response_time_ms := mx
            total_turns := conversation.length
            successful_turns :=
              (conversation.filter (fun t => 10 < t.ai_response.length)).length } })

/-! ## Aggregator -/

/-- One element of the `results` list handed to `generate_report`.  A
successful template run is a dict with `execution_time` and `analysis`
keys; the error record built in `main`'s except-branch has neither, which
the `Option` fields model (`none` = key absent). -/
structure TemplateResult where
  template : String
  execution_time : Option ℚ
  analysis : Option AnalysisOutcome
deriving DecidableEq, Repr

/-- A structured recommendation string of `_generate_recommendations`:
the low-alignment message carries the pooled mean it names (rendered to
two decimals by the f-string), and the compliance message carries the
phrase list it comma-joins. -/
inductive Recommendation where
  | lowAlignment (avg : ℚ)
  | complianceViolations (issues : List String)
deriving DecidableEq, Repr

/-- The `all_similarities` accumulator of `_generate_recommendations`:
for each result owning an `analysis` key, append the `avg_similarity` of
every turn entry (`analysis.get('semantic_similarity', {})` is empty for
the execution-error analysis record). -/
def collect_similarities (results : List TemplateResult) : List ℚ :=
  results.foldl
    (fun acc r =>
      match r.analysis with
      | some (.report a) => acc ++ a.semantic_similarity.map (fun p => p.2.avg_similarity)
      | some .execError => acc
      | none => acc)
    []

/-- The `compliance_issues` accumulator of `_generate_recommendations`:
the concatenation of the violation lists of every result owning an
`analysis` key. -/
def collect_violations (results : List TemplateResult) : List String :=
  results.foldl
    (fun acc r =>
      match r.analysis with
      | some (.report a) => acc ++ a.compliance_check.violations
      | some .execError => acc
      | none => acc)
    []

/-- Model of `_generate_recommendations`: a low-alignment recommendation when the
pooled similarities are non-empty with mean below `0.6`, then a single
compliance recommendation listing `list(set(issues))` when any violation
was collected.  Python's `set` iteration order is unspecified;
`List.dedup` is the deterministic stand-in (same members, no
duplicates). -/
def generate_recommendations (results : List TemplateResult) :
    List Recommendation :=
  let all_similarities := collect_similarities results
  let compliance_issues := collect_violations results
  let recs : List Recommendation := []
  let recs :=
    if !all_similarities.isEmpty then
      let avg_similarity := all_similarities.sum / all_similarities.length
      if avg_similarity < 3/5 then recs ++ [.lowAlignment avg_similarity] else recs
    else recs
  let recs :=
    if !compliance_issues.isEmpty then
      recs ++ [.complianceViolations compliance_issues.dedup]
    else recs
  recs

/-- The `summary` dict of the validation report. -/
structure ReportSummary where
  total_templates_tested : Nat
  successful_conversations : Nat
  avg_execution_time : ℚ
deriving DecidableEq, Repr

/-- The report dict built by `generate_report` (before serialization,
which is out of scope). -/
structure ValidationReport where
  summary : ReportSummary
  detailed_results : List TemplateResult
  recommendations : List Recommendation
deriving DecidableEq, Repr

/-- Model of `generate_report`: the list comprehension
`[r['execution_time'] for r in results]` raises `KeyError` at the first
result lacking the key, then `statistics.mean` of the collected times
raises `StatisticsError` when `results` is empty; otherwise the summary,
the results themselves and the recommendations are assembled. -/
def generate_report (results : List TemplateResult) :
    Except PyErr ValidationReport := do
  let times ← results.mapM
    (fun r =>
      match r.execution_time with
      | some t => Except.ok t
      | none => Except.error PyErr.keyError)
  let avg ← statMean times
  Except.ok
    { summary :=
        { total_templates_tested := results.length
          successful_conversations :=
            (results.filter (fun r => r.analysis.isSome)).length
          avg_execution_time := avg }
      detailed_results := results
      recommendations := generate_recommendations results }

/-- Whether an exception-carrying computation returned normally. -/
def exceptIsOk {ε α : Type} : Except ε α → Bool
  | .ok _ => true
  | .error _ => false

/-! ## Fixtures used by counterexamples and witnesses -/

/-- An embedding service whose every call raises. -/
def failingOracle : SimOracle := fun _ _ => .error .serviceError

/-- An embedding pipeline that always succeeds, scoring every theme 1/2. -/
def okOracle : SimOracle := fun _ ts => .ok (ts.map (fun _ => (1 : ℚ)/2))

/-- A named-entity recognizer that finds no entities. -/
def noEntities : NlpOracle := fun _ => []

/-- A one-turn template whose turn 1 expects one theme. -/
def sampleTemplate : ConversationTemplate :=
  { case_type := "car_accident"
    conversation_flow := [{ turn := 1, expected_ai_themes := ["empathy"] }]
    validation_criteria :=
      { information_capture := []
        tone_requirements := []
        prohibited_content := [] } }

/-- A successfully captured one-turn transcript matching `sampleTemplate`. -/
def sampleConversation : ConversationData :=
  { success := true
    conversation :=
      [{ turn := 1, user_input := "hi"
         ai_response := "sorry to hear about the accident", response_time_ms := 100 }] }

/-- A two-turn transcript whose first turn (number 5) has no matching
template turn and whose second (number 1) does. -/
def skippingConversation : ConversationData :=
  { success := true
    conversation :=
      [{ turn := 5, user_input := "x", ai_response := "stray reply", response_time_ms := 10 },
       { turn := 1, user_input := "hi"
         ai_response := "sorry to hear about the accident", response_time_ms := 100 }] }

/-- The error record `main` appends when a template run raises: a dict with
`template`, `error` and `timestamp` keys but no `execution_time` and no
`analysis`. -/
def errorOnlyResult : TemplateResult :=
  { template := "car_accident.yaml", execution_time := none, analysis := none }

/-! ## C1 — embedding failure during per-turn scoring -/

/-- C1, counterexample.  The claim says that when the embedding call raises
while scoring a turn whose matched template turn has non-empty themes, the
per-conversation analysis still completes, reporting that turn as an empty
mapping with `avg_similarity = 0`.  On the code the exception propagates:
with a one-turn successful transcript matched by a template turn carrying
the theme list `["empathy"]` and an embedding service that raises, the
analysis does not complete — `_analyze_conversation` itself raises the
service error (there is no try/except anywhere between the `encode` call
and `main`'s per-template handler). -/
theorem c1_embedding_failure_counterexample :
    analyze_conversation failingOracle noEntities sampleConversation sampleTemplate
      = Except.error PyErr.serviceError := rfl

/-- An always-failing embedding service makes the similarity loop raise as
soon as some transcript turn is matched by a template turn with a
non-empty theme list (earlier turns are either skipped or scored without
any service call). -/
theorem simLoop_error_of_failing_oracle (oracle : SimOracle) (flow : List TemplateTurn)
    (e : PyErr) (hfail : ∀ r ts, oracle r ts = .error e) :
    ∀ turns : List TranscriptTurn,
      (∃ td ∈ turns, (findTemplateTurn flow td.turn).any
        (fun tt => !tt.expected_ai_themes.isEmpty) = true) →
      simLoop oracle flow turns = .error e := by
  intro turns
  induction turns with
  | nil => rintro ⟨td, htd, -⟩; exact absurd htd (List.not_mem_nil td)
  | cons td rest ih =>
    rintro ⟨tw, htw, hmatch⟩
    rcases List.mem_cons.mp htw with rfl | htail
    · rcases hfind : findTemplateTurn flow tw.turn with - | tt
      · rw [hfind] at hmatch; simp [Option.any] at hmatch
      · rw [hfind] at hmatch
        simp only [Option.any, Bool.not_eq_true'] at hmatch
        have hne : tt.expected_ai_themes.isEmpty = false := by
          simpa using hmatch
        simp only [simLoop, hfind, calculate_semantic_similarity, hne,
          Bool.false_eq_true, if_false, hfail, bind, Except.bind]
    · rcases hfind : findTemplateTurn flow td.turn with - | tt
      · simp only [simLoop, hfind]
        exact ih ⟨tw, htail, hmatch⟩
      · have hrest := ih ⟨tw, htail, hmatch⟩
        rcases hthemes : tt.expected_ai_themes.isEmpty with - | -
        · simp only [simLoop, hfind, calculate_semantic_similarity, hthemes,
            Bool.false_eq_true, if_false, hfail, bind, Except.bind]
        · simp only [simLoop, hfind, calculate_semantic_similarity, hthemes,
            if_true, hrest, bind, Except.bind]

/-- C1, amended.  If the embedding call raises while scoring a transcript
turn whose matched template turn has a non-empty theme list, the exception
propagates out of `_analyze_conversation` and aborts the analysis of the
whole conversation (it is only caught per template in `main`); the
empty-mapping, `avg_similarity = 0` result arises only when the matched
theme list is empty, not on service failure. -/
theorem c1_embedding_failure_propagates (oracle : SimOracle) (nlp : NlpOracle)
    (cd : ConversationData) (tpl : ConversationTemplate) (e : PyErr)
    (hfail : ∀ r ts, oracle r ts = .error e)
    (hsucc : cd.success = true)
    (hturn : ∃ td ∈ cd.conversation,
      (findTemplateTurn tpl.conversation_flow td.turn).any
        (fun tt => !tt.expected_ai_themes.isEmpty) = true) :
    analyze_conversation oracle nlp cd tpl = Except.error e := by
  have hloop := simLoop_error_of_failing_oracle oracle tpl.conversation_flow e hfail
    cd.conversation hturn
  simp only [analyze_conversation, hsucc, Bool.not_true, Bool.false_eq_true, if_false,
    hloop, bind, Except.bind]

/-- C1, witness for the amended theorem: the service error propagates past
an unmatched leading turn and aborts the analysis at the matched turn. -/
theorem c1_embedding_failure_propagates_witness :
    analyze_conversation failingOracle noEntities skippingConversation sampleTemplate
      = Except.error PyErr.serviceError :=
  c1_embedding_failure_propagates failingOracle noEntities skippingConversation
    sampleTemplate PyErr.serviceError (fun _ _ => rfl) rfl
    ⟨{ turn := 1, user_input := "hi"
       ai_response := "sorry to hear about the accident", response_time_ms := 100 },
     by decide, by decide⟩

/-! ## C2 — failed capture short-circuits -/

/-- C2: when `result.success` is false, `_analyze_conversation` returns the
`{'error': ...}` record at once, for every embedding/NER service and every
template — so no similarity, extraction, tone or compliance computation can
influence (or abort) the result, and nothing is raised. -/
theorem c2_capture_failure_short_circuits (oracle : SimOracle) (nlp : NlpOracle)
    (cd : ConversationData) (tpl : ConversationTemplate)
    (hfail : cd.success = false) :
    analyze_conversation oracle nlp cd tpl = Except.ok AnalysisOutcome.execError := by
  simp [analyze_conversation, hfail]

/-- C2, witness: a failed capture yields the error record even when every
embedding call would raise. -/
theorem c2_capture_failure_witness :
    analyze_conversation failingOracle noEntities
      { success := false, conversation := [] } sampleTemplate
      = Except.ok AnalysisOutcome.execError :=
  c2_capture_failure_short_circuits failingOracle noEntities
    { success := false, conversation := [] } sampleTemplate rfl

/-! ## C3 — aggregating the empty batch -/

/-- C3, counterexample.  The claim says aggregating the empty result list
produces a report with a total of 0 and no error; on the code
`statistics.mean([])` raises `StatisticsError` while computing
`avg_execution_time`, so `generate_report` does not return a report at
all. -/
theorem c3_empty_batch_counterexample :
    exceptIsOk (generate_report []) = false := rfl

/-- C3, amended.  Aggregating the empty sequence of per-template results
raises `StatisticsError` out of the mean over the empty execution-time
list (`statistics.mean` requires at least one data point); no `BatchReport`
— and hence no total count of 0 — is produced. -/
theorem c3_empty_batch_raises :
    generate_report [] = Except.error PyErr.statisticsError := rfl

/-! ## C4 — results lacking an execution time -/

/-- C4: the code crashes where the claim (and the spec's intent, visible in
`main`'s per-template exception handling) promises exclusion from the mean.
Feeding `generate_report` the very error record `main` builds for a failed
template — a dict with no `execution_time` key — raises `KeyError` inside
`[r['execution_time'] for r in results]` instead of excluding the item. -/
theorem c4_missing_execution_time_raises :
    generate_report [errorOnlyResult] = Except.error PyErr.keyError := rfl

/-! ## C10 — successful capture with an empty turn list -/

/-- C10: on a successful `ConversationResult` whose conversation list is
empty, `_analyze_conversation` raises `StatisticsError` while computing the
performance metrics (`statistics.mean` over the empty response-time list)
instead of returning an analysis record — whatever the services and the
template are. -/
theorem c10_empty_conversation_raises (oracle : SimOracle) (nlp : NlpOracle)
    (tpl : ConversationTemplate) :
    analyze_conversation oracle nlp { success := true, conversation := [] } tpl
      = Except.error PyErr.statisticsError := rfl

/-! ## C5 — compliance check -/

/-- The append-loop of `_check_compliance` computes a filter. -/
theorem check_compliance_foldl_eq (text : String) (l acc : List String) :
    l.foldl
      (fun vs p => if pyIn (strLower p) (strLower text) then vs ++ [p] else vs)
      acc
    = acc ++ l.filter (fun p => pyIn (strLower p) (strLower text)) := by
  induction l generalizing acc with
  | nil => simp
  | cons p t ih =>
    rcases h : pyIn (strLower p) (strLower text) with - | -
    · simp [List.foldl_cons, h, ih, List.filter_cons]
    · simp [List.foldl_cons, h, ih, List.filter_cons]

/-- C5: the compliance violations are exactly the prohibited phrases whose
lowercased form occurs in the lowercased transcript text — the filter of
the input list, so order and multiplicity of `prohibited_content` are
preserved — and `is_compliant` holds iff that list is empty. -/
theorem c5_compliance_filter (text : String) (prohibited : List String) :
    (compliance_check_record text prohibited).violations
      = prohibited.filter (fun p => pyIn (strLower p) (strLower text))
    ∧ ((compliance_check_record text prohibited).is_compliant = true
      ↔ (compliance_check_record text prohibited).violations = []) := by
  constructor
  · simpa [compliance_check_record, check_compliance]
      using check_compliance_foldl_eq text prohibited []
  · simp [compliance_check_record, List.length_eq_zero]

/-- C5, witness: the spec's case-insensitivity example — the phrase
`"at fault"` is flagged inside `"The Client Was AT FAULT"` and the check
is non-compliant. -/
theorem c5_compliance_witness :
    (compliance_check_record "The Client Was AT FAULT" ["at fault"]).violations
      = ["at fault"]
    ∧ (compliance_check_record "The Client Was AT FAULT" ["at fault"]).is_compliant
      = false :=
  ⟨(c5_compliance_filter "The Client Was AT FAULT" ["at fault"]).1.trans (by decide),
   by decide⟩

/-! ## C6 — information extraction -/

/-- C6: `extraction_confidence` is exactly the entity count plus the
keyword count, `extracted` holds iff that sum is positive, and any
information type outside the four-entry registry yields
`extracted = false` with confidence 0 (and no exception — the function is
total). -/
theorem c6_extraction_confidence (nlp : NlpOracle) (text : String)
    (info_type : String) :
    (extract_information_type nlp text info_type).extraction_confidence
      = (extract_information_type nlp text info_type).entities_found.length
        + (extract_information_type nlp text info_type).keywords_found.length
    ∧ ((extract_information_type nlp text info_type).extracted = true
      ↔ 0 < (extract_information_type nlp text info_type).extraction_confidence)
    ∧ (info_type ∉ ["client_name", "location", "accident_details",
          "fault_determination"] →
        (extract_information_type nlp text info_type).extracted = false
        ∧ (extract_information_type nlp text info_type).extraction_confidence = 0) := by
  refine ⟨rfl, ?_, ?_⟩
  · simp only [extract_information_type, Bool.or_eq_true, decide_eq_true_eq]
    omega
  · intro h
    simp only [List.mem_cons, List.not_mem_nil, or_false, not_or] at h
    obtain ⟨h1, h2, h3, h4⟩ := h
    simp [extract_information_type, extraction_patterns, h1, h2, h3, h4]

/-- C6, witness: an information type absent from the registry reports
nothing extracted with confidence 0. -/
theorem c6_extraction_witness :
    (extract_information_type noEntities "tell me more" "medical_history").extracted
      = false
    ∧ (extract_information_type noEntities "tell me more"
        "medical_history").extraction_confidence = 0 :=
  (c6_extraction_confidence noEntities "tell me more" "medical_history").2.2 (by decide)
/-! ## C7 — tone analysis -/

/-- Looking up a requested profile in the mapping `_analyze_tone` builds
finds its computed score. -/
theorem analyze_tone_lookup (text : String) (reqs : List String) (r : String)
    (hr : r ∈ reqs) :
    (analyze_tone text reqs).lookup r = some (toneScoreFor text r) := by
  induction reqs with
  | nil => exact absurd hr (List.not_mem_nil r)
  | cons b t ih =>
    rcases List.mem_cons.mp hr with rfl | htail
    · simp [analyze_tone, List.lookup]
    · rcases hb : r == b with - | -
      · simpa [analyze_tone, List.lookup, hb] using ih htail
      · simp only [beq_iff_eq] at hb
        subst hb
        simp [analyze_tone, List.lookup]

/-- The `indicators_found` field of a tone score, by computation. -/
theorem toneScoreFor_indicators (text r : String) :
    (toneScoreFor text r).indicators_found
      = (tone_indicators r).filter (fun ind => pyIn ind (strLower text)) := rfl

/-- The `score` field of a tone score, by computation. -/
theorem toneScoreFor_score (text r : String) :
    (toneScoreFor text r).score
      = (if (tone_indicators r).isEmpty then 0
         else (((tone_indicators r).filter
            (fun ind => pyIn ind (strLower text))).length : ℚ)
            / (tone_indicators r).length) := rfl

/-- The `meets_requirement` field of a tone score, by computation. -/
theorem toneScoreFor_meets (text r : String) :
    (toneScoreFor text r).meets_requirement
      = decide (0 < ((tone_indicators r).filter
          (fun ind => pyIn ind (strLower text))).length) := rfl

/-- Every indicator phrase in the tone registry is already lowercase, so
the code's `indicator in text_lower` test agrees with the case-insensitive
reading `indicator.lower() in text.lower()`. -/
theorem tone_indicators_lowercase (r : String) :
    ∀ i ∈ tone_indicators r, strLower i = i := by
  unfold tone_indicators
  split_ifs <;> decide

/-- C7: for every requested profile, the analyzer's entry is
`toneScoreFor`; its `indicators_found` are the registry indicators
occurring case-insensitively in the text, its score is the hit count over
the indicator count (0 for an indicator-less profile) and lies in
`[0, 1]`, `meets_requirement` holds iff some indicator was found, and a
profile outside the registry scores `⟨[], 0, false⟩`. -/
theorem c7_tone_scoring (text : String) (reqs : List String) (r : String)
    (hr : r ∈ reqs) :
    (analyze_tone text reqs).lookup r = some (toneScoreFor text r)
    ∧ (toneScoreFor text r).indicators_found
      = (tone_indicators r).filter (fun i => pyIn (strLower i) (strLower text))
    ∧ (toneScoreFor text r).score
      = (if (tone_indicators r).isEmpty then 0
         else ((toneScoreFor text r).indicators_found.length : ℚ)
              / (tone_indicators r).length)
    ∧ 0 ≤ (toneScoreFor text r).score
    ∧ (toneScoreFor text r).score ≤ 1
    ∧ ((toneScoreFor text r).meets_requirement = true
      ↔ (toneScoreFor text r).indicators_found ≠ [])
    ∧ (r ∉ ["professional", "empathetic", "legally_compliant"]
      → toneScoreFor text r = ⟨[], 0, false⟩) := by
  have hlen : ((tone_indicators r).filter
      (fun ind => pyIn ind (strLower text))).length ≤ (tone_indicators r).length :=
    List.length_filter_le _ _
  refine ⟨analyze_tone_lookup text reqs r hr, ?_, rfl, ?_, ?_, ?_, ?_⟩
  · rw [toneScoreFor_indicators]
    exact (List.filter_congr (fun i hi => by rw [tone_indicators_lowercase r i hi])).symm
  · rw [toneScoreFor_score]
    split_ifs with h
    · exact le_refl 0
    · positivity
  · rw [toneScoreFor_score]
    split_ifs with h
    · exact zero_le_one
    · have hne : tone_indicators r ≠ [] := by
        intro hnil
        rw [hnil] at h
        simp at h
      have hpos : 0 < ((tone_indicators r).length : ℚ) := by
        exact_mod_cast List.length_pos.mpr hne
      rw [div_le_one hpos]
      exact_mod_cast hlen
  · rw [toneScoreFor_meets, toneScoreFor_indicators]
    simp [List.length_pos]
  · intro h
    simp only [List.mem_cons, List.not_mem_nil, or_false, not_or] at h
    obtain ⟨h1, h2, h3⟩ := h
    have htone : tone_indicators r = [] := by
      simp [tone_indicators, h1, h2, h3]
    simp [toneScoreFor, htone]

/-- C7, witness: the `empathetic` profile on a text containing two of its
indicators is scored in `[0, 1]` and found in the analyzer's mapping. -/
theorem c7_tone_witness :
    (analyze_tone "I understand this is difficult" ["empathetic"]).lookup "empathetic"
      = some (toneScoreFor "I understand this is difficult" "empathetic")
    ∧ 0 ≤ (toneScoreFor "I understand this is difficult" "empathetic").score
    ∧ (toneScoreFor "I understand this is difficult" "empathetic").score ≤ 1 :=
  ⟨(c7_tone_scoring "I understand this is difficult" ["empathetic"] "empathetic"
      (by decide)).1,
   (c7_tone_scoring "I understand this is difficult" ["empathetic"] "empathetic"
      (by decide)).2.2.2.1,
   (c7_tone_scoring "I understand this is difficult" ["empathetic"] "empathetic"
      (by decide)).2.2.2.2.1⟩

/-! ## C8 — aggregation recommendations -/

/-- The pooled `avg_similarity` values: every turn entry of every result
that carries a usable analysis record, in order. -/
def pooled_similarities (results : List TemplateResult) : List ℚ :=
  results.flatMap
    (fun r =>
      match r.analysis with
      | some (.report a) => a.semantic_similarity.map (fun p => p.2.avg_similarity)
      | _ => [])

/-- The pooled compliance violations of every result carrying a usable
analysis record, in order. -/
def pooled_violations (results : List TemplateResult) : List String :=
  results.flatMap
    (fun r =>
      match r.analysis with
      | some (.report a) => a.compliance_check.violations
      | _ => [])

/-- The similarity accumulator loop equals the pooled flat map. -/
theorem collect_similarities_eq (results : List TemplateResult) :
    collect_similarities results = pooled_similarities results := by
  suffices h : ∀ (l : List TemplateResult) (acc : List ℚ),
      l.foldl
        (fun acc r =>
          match r.analysis with
          | some (.report a) => acc ++ a.semantic_similarity.map (fun p => p.2.avg_similarity)
          | some .execError => acc
          | none => acc)
        acc = acc ++ pooled_similarities l by
    simpa [collect_similarities] using h results []
  intro l
  induction l with
  | nil => intro acc; simp [pooled_similarities]
  | cons x t ih =>
    intro acc
    rcases hx : x.analysis with - | o
    · simp [List.foldl_cons, hx, ih, pooled_similarities, List.flatMap_cons]
    · rcases o with - | a
      · simp [List.foldl_cons, hx, ih, pooled_similarities, List.flatMap_cons]
      · simp [List.foldl_cons, hx, ih, pooled_similarities, List.flatMap_cons]

/-- The violation accumulator loop equals the pooled flat map. -/
theorem collect_violations_eq (results : List TemplateResult) :
    collect_violations results = pooled_violations results := by
  suffices h : ∀ (l : List TemplateResult) (acc : List String),
      l.foldl
        (fun acc r =>
          match r.analysis with
          | some (.report a) => acc ++ a.compliance_check.violations
          | some .execError => acc
          | none => acc)
        acc = acc ++ pooled_violations l by
    simpa [collect_violations] using h results []
  intro l
  induction l with
  | nil => intro acc; simp [pooled_violations]
  | cons x t ih =>
    intro acc
    rcases hx : x.analysis with - | o
    · simp [List.foldl_cons, hx, ih, pooled_violations, List.flatMap_cons]
    · rcases o with - | a
      · simp [List.foldl_cons, hx, ih, pooled_violations, List.flatMap_cons]
      · simp [List.foldl_cons, hx, ih, pooled_violations, List.flatMap_cons]

/-- C8: the recommendation list is exactly the optional low-alignment
entry — emitted iff similarity values were pooled and their mean is below
`0.6`, and naming that mean — followed by the optional single compliance
entry listing the deduplicated pooled violations, emitted iff any
violation was collected; the deduplicated list has no duplicates and the
same members as the pooled violations. -/
theorem c8_recommendation_rules (results : List TemplateResult) :
    (generate_recommendations results
      = (if pooled_similarities results ≠ []
            ∧ (pooled_similarities results).sum
              / ((pooled_similarities results).length : ℚ) < 3/5
         then [Recommendation.lowAlignment
                ((pooled_similarities results).sum
                  / ((pooled_similarities results).length : ℚ))]
         else [])
        ++ (if pooled_violations results ≠ []
            then [Recommendation.complianceViolations
                   (pooled_violations results).dedup]
            else []))
    ∧ (pooled_violations results).dedup.Nodup
    ∧ (∀ x, x ∈ (pooled_violations results).dedup ↔ x ∈ pooled_violations results) := by
  refine ⟨?_, List.nodup_dedup _, fun x => List.mem_dedup⟩
  simp only [generate_recommendations, collect_similarities_eq, collect_violations_eq]
  by_cases h1 : pooled_similarities results = []
  · by_cases h3 : pooled_violations results = [] <;>
      simp [h1, h3, List.isEmpty_iff]
  · have h1' : (pooled_similarities results).isEmpty = false := by
      simpa [List.isEmpty_iff] using h1
    by_cases h2 : (pooled_similarities results).sum
        / ((pooled_similarities results).length : ℚ) < 3/5 <;>
      by_cases h3 : pooled_violations results = [] <;>
        simp [h1, h1', h2, h3, List.isEmpty_iff]

/-- The single-template batch of the spec's aggregation example: two turn
entries with `avg_similarity` 0.3 and 0.4 and no violations. -/
def exampleResults : List TemplateResult :=
  [{ template := "car_accident"
     execution_time := some 1
     analysis := some (.report
       { semantic_similarity :=
           [(1, { expected_themes := ["empathy"]
                  similarity_scores := [("empathy", 3/10)]
                  avg_similarity := 3/10 }),
            (2, { expected_themes := ["next steps"]
                  similarity_scores := [("next steps", 2/5)]
                  avg_similarity := 2/5 })]
         information_extraction := []
         tone_analysis := []
         compliance_check := { violations := [], is_compliant := true }
         performance_metrics :=
           { avg_response_time_ms := 1, max_response_time_ms := 1
             total_turns := 2, successful_turns := 2 } }) }]

/-- C8, witness: pooled similarities `[0.3, 0.4]` emit exactly one
low-alignment recommendation naming their mean `0.35`, and no compliance
recommendation. -/
theorem c8_recommendation_witness :
    generate_recommendations exampleResults
      = [Recommendation.lowAlignment (7/20)] := by
  rw [(c8_recommendation_rules exampleResults).1]
  have hp : pooled_similarities exampleResults = [3/10, 2/5] := rfl
  have hv : pooled_violations exampleResults = [] := rfl
  rw [hp, hv]
  norm_num
  exact List.cons_ne_nil _ _

/-! ## C9 — unmatched transcript turns are skipped -/

/-- A key has an entry in an association list iff it is among the keys. -/
theorem lookup_isSome_iff {β : Type} (l : List (Nat × β)) (n : Nat) :
    ((l.lookup n).isSome = true) ↔ n ∈ l.map Prod.fst := by
  induction l with
  | nil => simp [List.lookup]
  | cons p t ih =>
    obtain ⟨k, b⟩ := p
    rcases hp : (n == k) with - | -
    · have hne : ¬ n = k := beq_eq_false_iff_ne.mp hp
      simp [List.lookup, hp, ih, hne]
    · have heq : n = k := beq_iff_eq.mp hp
      simp [List.lookup, hp, heq]

/-- When every embedding call succeeds, the similarity loop returns
normally and its keys are exactly the turn numbers of the transcript turns
having a matching template turn, in transcript order. -/
theorem simLoop_keys (oracle : SimOracle) (flow : List TemplateTurn)
    (hok : ∀ r ts, ∃ v, oracle r ts = .ok v) :
    ∀ turns : List TranscriptTurn, ∃ entries,
      simLoop oracle flow turns = .ok entries
      ∧ entries.map Prod.fst
        = (turns.filter
            (fun td => (findTemplateTurn flow td.turn).isSome)).map
              (fun td => td.turn) := by
  intro turns
  induction turns with
  | nil => exact ⟨[], rfl, rfl⟩
  | cons td rest ih =>
    obtain ⟨entries, hE, hkeys⟩ := ih
    rcases hfind : findTemplateTurn flow td.turn with - | tt
    · refine ⟨entries, ?_, ?_⟩
      · simp [simLoop, hfind, hE]
      · simp [List.filter_cons, hfind, hkeys]
    · have hcalc : ∃ scores,
          calculate_semantic_similarity oracle td.ai_response tt.expected_ai_themes
            = .ok scores := by
        rcases hemp : tt.expected_ai_themes.isEmpty with - | -
        · obtain ⟨v, hv⟩ := hok td.ai_response tt.expected_ai_themes
          refine ⟨tt.expected_ai_themes.zip v, ?_⟩
          simp [calculate_semantic_similarity, hemp, hv, bind, Except.bind]
        · exact ⟨[], by simp [calculate_semantic_similarity, hemp]⟩
      obtain ⟨scores, hsc⟩ := hcalc
      refine ⟨(td.turn,
          ⟨tt.expected_ai_themes, scores,
           if scores.isEmpty then 0
           else (scores.map Prod.snd).sum / scores.length⟩) :: entries, ?_, ?_⟩
      · simp [simLoop, hfind, hsc, hE, bind, Except.bind]
      · simp [List.filter_cons, hfind, hkeys]

/-- C9: on a successfully captured, non-empty transcript and with services
that return normally, `_analyze_conversation` completes without error and
its semantic-similarity mapping has an entry for a turn number exactly
when some transcript turn carries that number and the template's flow
contains a matching turn — turns without a template match are silently
skipped. -/
theorem c9_unmatched_turns_skipped (oracle : SimOracle) (nlp : NlpOracle)
    (cd : ConversationData) (tpl : ConversationTemplate)
    (hsucc : cd.success = true)
    (hne : cd.conversation ≠ [])
    (hok : ∀ r ts, ∃ v, oracle r ts = .ok v) :
    ∃ a : AnalysisRecord,
      analyze_conversation oracle nlp cd tpl = Except.ok (AnalysisOutcome.report a)
      ∧ ∀ n : Nat,
          ((a.semantic_similarity.lookup n).isSome = true
            ↔ ((findTemplateTurn tpl.conversation_flow n).isSome = true
               ∧ ∃ td ∈ cd.conversation, td.turn = n)) := by
  obtain ⟨entries, hE, hkeys⟩ :=
    simLoop_keys oracle tpl.conversation_flow hok cd.conversation
  have htimes : cd.conversation.map (fun t => t.response_time_ms) ≠ [] := by
    simpa using hne
  have hempty : (cd.conversation.map (fun t => t.response_time_ms)).isEmpty = false := by
    simpa [List.isEmpty_iff] using htimes
  have hm : statMean (cd.conversation.map (fun t => t.response_time_ms))
      = .ok ((cd.conversation.map (fun t => t.response_time_ms)).sum
          / ((cd.conversation.map (fun t => t.response_time_ms)).length : ℚ)) := by
    simp [statMean, hempty]
  obtain ⟨mx, hmx⟩ :
      ∃ mx, pyMax (cd.conversation.map (fun t => t.response_time_ms))
        = .ok mx := by
    rcases hl : cd.conversation.map (fun t => t.response_time_ms) with - | ⟨x, t⟩
    · exact absurd hl htimes
    · rw [hl]
      exact ⟨t.foldl max x, rfl⟩
  refine ⟨{ semantic_similarity := entries
            information_extraction :=
              tpl.validation_criteria.information_capture.map
                (fun it => (it, extract_information_type nlp
                  (String.intercalate " "
                    (cd.conversation.map (fun t => t.ai_response))) it))
            tone_analysis :=
              analyze_tone
                (String.intercalate " " (cd.conversation.map (fun t => t.ai_response)))
                tpl.validation_criteria.tone_requirements
            compliance_check :=
              compliance_check_record
                (String.intercalate " " (cd.conversation.map (fun t => t.ai_response)))
                tpl.validation_criteria.prohibited_content
            performance_metrics :=
              { avg_response_time_ms :=
                  (cd.conversation.map (fun t => t.response_time_ms)).sum
                    / ((cd.conversation.map (fun t => t.response_time_ms)).length : ℚ)
                max_response_time_ms := mx
                total_turns := cd.conversation.length
                successful_turns :=
                  (cd.conversation.filter
                    (fun t => 10 < t.ai_response.length)).length } }, ?_, ?_⟩
  · simp only [analyze_conversation, hsucc, Bool.not_true, Bool.false_eq_true,
      if_false, hE, hm, hmx, bind, Except.bind]
  · intro n
    rw [lookup_isSome_iff, hkeys]
    constructor
    · intro hmem
      obtain ⟨td, hmemf, hturn⟩ := List.mem_map.mp hmem
      obtain ⟨hmemc, hp⟩ := List.mem_filter.mp hmemf
      exact ⟨hturn ▸ hp, td, hmemc, hturn⟩
    · rintro ⟨hf, td, hmemc, hturn⟩
      exact List.mem_map.mpr ⟨td, List.mem_filter.mpr ⟨hmemc, hturn ▸ hf⟩, hturn⟩

/-- C9, witness: a transcript with one unmatched and one matched turn is
analyzed without error under an always-succeeding embedding service. -/
theorem c9_unmatched_turns_witness :
    exceptIsOk (analyze_conversation okOracle noEntities
      skippingConversation sampleTemplate) = true := by
  obtain ⟨a, ha, -⟩ :=
    c9_unmatched_turns_skipped okOracle noEntities skippingConversation
      sampleTemplate rfl (by simp [skippingConversation])
      (fun r ts => ⟨ts.map (fun _ => (1 : ℚ)/2), rfl⟩)
  rw [ha]
  rfl
